import Mathlib

/-!
Shallow embedding of the parking-lot allocator from `src/lib.rs`
(crate `parking_lot`, files `lib.rs` and `main.rs`).

Modelling conventions:
* Rust `HashMap<K, V>` is modelled as an association list `List (K × V)`;
  `insert` replaces the first entry with the same key in place (appending
  when the key is fresh), `remove` drops the first entry with the key, and
  iteration (`values()`, `iter()`) follows the list order — a fixed,
  deterministic-per-run order, matching the spec's "unspecified but
  deterministic-per-run" reading of HashMap iteration.
* `chrono::DateTime<Utc>` timestamps are modelled as `Nat` seconds; each
  operation that calls `Utc::now()` takes the current time as an explicit
  `now : Nat` argument.  `Duration::num_hours` on a non-negative duration
  is `(exit - entry) / 3600` with truncating `Nat` division.
* `f32` money amounts are modelled as `Rat`; the amounts the code computes
  (small whole-hour multiples of 10) are exactly representable, so no
  rounding is lost.
* The process-wide `static COUNTER` atomics (ticket ids in
  `ParkingLot::generate_ticket_id`, spot ids in `ParkingSpot::new`) are
  modelled by explicit counter state threaded through the functions.
* Functions that mutate `&mut self` return the updated value; fallible ones
  return `Except String · × state`, where the state component is the state
  after the call (the Rust error paths in this program return before any
  mutation, which the definitions reproduce literally).
* `.unwrap()` calls that the sequential control flow makes infallible are
  modelled by an `Except.error "panic: unwrap"` branch, distinct from every
  error string the program produces.
-/

/-- `SpotType` from `lib.rs`. -/
inductive SpotType where
  | Large
  | Regular
  | XLarge
  | Handicapped
deriving DecidableEq, Repr

/-- `VehicleType` from `lib.rs`. -/
inductive VehicleType where
  | Motor
  | Truck
  | Bike
deriving DecidableEq, Repr

/-- `PaymentStatus` from `lib.rs`. -/
inductive PaymentStatus where
  | Succeeded
  | Failed
  | Pending
deriving DecidableEq, Repr

/-- `Vehicle` from `lib.rs`. -/
structure Vehicle where
  vehicle_type : VehicleType
  model : String
  license_plate : String
deriving DecidableEq, Repr

/-- `ParkingSpot` from `lib.rs`: identifier, free flag, class, occupant. -/
structure ParkingSpot where
  id : String
  is_free : Bool
  spot_type : SpotType
  vehicle : Option Vehicle
deriving DecidableEq, Repr

/-- `ParkingTicket` from `lib.rs`. -/
structure ParkingTicket where
  ticket_id : String
  vehicle : Vehicle
  spot_id : String
  entry_time : Nat
  exit_time : Option Nat
  payment_status : PaymentStatus
deriving DecidableEq, Repr

/-- `ParkingCharge` from `lib.rs`; the `f32` fields are modelled as `Rat`. -/
structure ParkingCharge where
  total : Rat
  chargeback : Rat
deriving DecidableEq, Repr

/-- `ParkingFloor` from `lib.rs`: id and the keyed spot collection. -/
structure ParkingFloor where
  id : Nat
  spots : List (String × ParkingSpot)
deriving DecidableEq, Repr

/-- `ParkingLot` from `lib.rs`.  `ticket_counter` models the process-wide
`static COUNTER` used by `generate_ticket_id`. -/
structure ParkingLot where
  name : String
  address : String
  uid : String
  floors : List (Nat × ParkingFloor)
  active_tickets : List (String × ParkingTicket)
  ticket_counter : Nat
deriving DecidableEq, Repr

/-- `ParkingLotDisplayBoard` from `lib.rs` (counts as `Nat`). -/
structure ParkingLotDisplayBoard where
  uid : String
  num_floors : Nat
  num_empty_spots : Nat
  num_parked_vehicles : Nat
deriving DecidableEq, Repr

deriving instance DecidableEq for Except

/-! ### Association-list model of `HashMap` -/

/-- `HashMap::get`: the value stored at the first entry with key `k`. -/
def alLookup {α β : Type} [DecidableEq α] : List (α × β) → α → Option β
  | [], _ => none
  | (k', v') :: rest, k => if k' = k then some v' else alLookup rest k

/-- `HashMap::insert`: replace the first entry with key `k` in place, or
append a fresh entry. -/
def alInsert {α β : Type} [DecidableEq α] : List (α × β) → α → β → List (α × β)
  | [], k, v => [(k, v)]
  | (k', v') :: rest, k, v =>
    if k' = k then (k, v) :: rest else (k', v') :: alInsert rest k v

/-- `HashMap::remove`: drop the first entry with key `k`. -/
def alRemove {α β : Type} [DecidableEq α] : List (α × β) → α → List (α × β)
  | [], _ => []
  | (k', v') :: rest, k => if k' = k then rest else (k', v') :: alRemove rest k

/-! ### `ParkingSpot` operations -/

namespace ParkingSpot

/-- `ParkingSpot::is_compatible`: the fixed (vehicle class × spot class)
compatibility table, case for case as written in `lib.rs`. -/
def is_compatible (s : ParkingSpot) (vt : VehicleType) : Bool :=
  match vt, s.spot_type with
  | .Motor, .Regular => true
  | .Motor, .Large => true
  | .Motor, .XLarge => true
  | .Bike, .Regular => true
  | .Truck, .Large => true
  | .Truck, .XLarge => true
  | .Motor, .Handicapped => false
  | .Truck, .Regular => false
  | .Truck, .Handicapped => false
  | .Bike, .Large => true
  | .Bike, .XLarge => true
  | .Bike, .Handicapped => false

/-- `ParkingSpot::assign_vehicle`.  Returns the result together with the spot
after the call; both error paths return before mutating, so the spot comes
back unchanged there. -/
def assign_vehicle (s : ParkingSpot) (v : Vehicle) :
    Except String Unit × ParkingSpot :=
  if !s.is_free then
    (.error "Spot is already occupied", s)
  else if !(s.is_compatible v.vehicle_type) then
    (.error "Vehicle type not compatible with spot type", s)
  else
    (.ok (), { s with vehicle := some v, is_free := false })

/-- `ParkingSpot::remove_vehicle`: clears occupant and marks the spot free. -/
def remove_vehicle (s : ParkingSpot) : ParkingSpot :=
  { s with vehicle := none, is_free := true }

/-- `ParkingSpot::new`: mints `spot_<n>` from the process-wide counter (the
counter is explicit state here) and stores no occupant, whatever `is_free`
says. -/
def new (counter : Nat) (is_free : Bool) (st : SpotType) : ParkingSpot × Nat :=
  ({ id := "spot_" ++ toString counter
   , is_free := is_free
   , spot_type := st
   , vehicle := none }, counter + 1)

end ParkingSpot

/-! ### `ParkingFloor` operations -/

namespace ParkingFloor

/-- The loop body of `ParkingFloor::initialize_spots`: inserts ten fresh
`Regular` spots under the floor-local keys `spot_0` … `spot_9` (the spots'
own `id` fields come from the process-wide counter). -/
def initSpots (counter : Nat) : List (String × ParkingSpot) × Nat :=
  (List.range 10).foldl
    (fun acc i =>
      let (spot, c') := ParkingSpot.new acc.2 true SpotType.Regular
      (alInsert acc.1 ("spot_" ++ toString i) spot, c'))
    ([], counter)

/-- `ParkingFloor::new`: builds the floor and runs `initialize_spots`;
threads the spot-id counter. -/
def new (id : Nat) (counter : Nat) : ParkingFloor × Nat :=
  let (spots, c') := initSpots counter
  ({ id := id, spots := spots }, c')

/-- `ParkingFloor::add_spot`: insert under the spot's own `id`. -/
def add_spot (f : ParkingFloor) (spot : ParkingSpot) : ParkingFloor :=
  { f with spots := alInsert f.spots spot.id spot }

/-- The scan loop of `ParkingFloor::find_available_spot`: first free,
compatible spot's key in iteration order. -/
def findFreeCompat : List (String × ParkingSpot) → VehicleType → Option String
  | [], _ => none
  | (sid, s) :: rest, vt =>
    if s.is_free && s.is_compatible vt then some sid else findFreeCompat rest vt

/-- `ParkingFloor::find_available_spot`: returns `(self.id, spot_id)` for the
first free compatible spot. -/
def find_available_spot (f : ParkingFloor) (vt : VehicleType) :
    Option (Nat × String) :=
  match findFreeCompat f.spots vt with
  | some sid => some (f.id, sid)
  | none => none

end ParkingFloor

/-! ### `ParkingLot` operations -/

namespace ParkingLot

/-- `ParkingLot::new`: empty floor and ticket tables (the ticket-id counter
state starts wherever the process left it; it is a parameter here). -/
def new (name address uid : String) (counter : Nat) : ParkingLot :=
  { name := name
  , address := address
  , uid := uid
  , floors := []
  , active_tickets := []
  , ticket_counter := counter }

/-- `ParkingLot::add_floor`: insert under the floor's `id`. -/
def add_floor (lot : ParkingLot) (floor : ParkingFloor) : ParkingLot :=
  { lot with floors := alInsert lot.floors floor.id floor }

/-- `ParkingLot::get_floor_by_id`. -/
def get_floor_by_id (lot : ParkingLot) (id : Nat) : Option ParkingFloor :=
  alLookup lot.floors id

/-- `floors.values().find_map(|floor| floor.find_available_spot(...))`:
scan the floors in iteration order, first hit wins. -/
def findFloorsSpot : List (Nat × ParkingFloor) → VehicleType → Option (Nat × String)
  | [], _ => none
  | (_, f) :: rest, vt =>
    match f.find_available_spot vt with
    | some r => some r
    | none => findFloorsSpot rest vt

/-- `Parkable::park_vehicle` for `ParkingLot`.  Returns the result and the
lot after the call; every error path in the source returns before mutating
the lot, so those paths return the lot unchanged. -/
def park_vehicle (lot : ParkingLot) (v : Vehicle) (now : Nat) :
    Except String ParkingTicket × ParkingLot :=
  match findFloorsSpot lot.floors v.vehicle_type with
  | none => (.error "No available spots", lot)
  | some (floor_number, spot_id) =>
    match alLookup lot.floors floor_number with
    | none => (.error "panic: unwrap", lot)
    | some floor =>
      match alLookup floor.spots spot_id with
      | none => (.error "panic: unwrap", lot)
      | some spot =>
        match spot.assign_vehicle v with
        | (.error e, _) => (.error e, lot)
        | (.ok _, spot') =>
          let floor' := { floor with spots := alInsert floor.spots spot_id spot' }
          let floors' := alInsert lot.floors floor_number floor'
          let ticket_id := "TKT_" ++ toString lot.ticket_counter
          let ticket : ParkingTicket :=
            { ticket_id := ticket_id
            , vehicle := v
            , spot_id := spot_id
            , entry_time := now
            , exit_time := none
            , payment_status := .Pending }
          let tickets' := alInsert lot.active_tickets ticket_id ticket
          (.ok ticket,
           { lot with
               floors := floors'
             , active_tickets := tickets'
             , ticket_counter := lot.ticket_counter + 1 })

/-- The spot-freeing loop of `unpark_vehicle`: walk the floors in iteration
order; at the first floor whose spot table holds `sid`, run
`remove_vehicle` on that spot and break. -/
def vacateFirst : List (Nat × ParkingFloor) → String → List (Nat × ParkingFloor)
  | [], _ => []
  | (fid, f) :: rest, sid =>
    match alLookup f.spots sid with
    | some spot =>
      (fid, { f with spots := alInsert f.spots sid spot.remove_vehicle }) :: rest
    | none => (fid, f) :: vacateFirst rest sid

/-- `Parkable::unpark_vehicle` for `ParkingLot`.  On a missing ticket id the
source removes nothing and returns at once (`remove` of an absent key is a
no-op, written out literally here); otherwise it charges whole hours at
10.0/h, vacates the first floor holding the ticket's spot id, and re-inserts
the completed ticket under the same id. -/
def unpark_vehicle (lot : ParkingLot) (ticket_id : String) (now : Nat) :
    Except String ParkingCharge × ParkingLot :=
  match alLookup lot.active_tickets ticket_id with
  | none =>
    (.error "Invalid ticket ID",
     { lot with active_tickets := alRemove lot.active_tickets ticket_id })
  | some ticket =>
    let tickets₁ := alRemove lot.active_tickets ticket_id
    let hours : Nat := (now - ticket.entry_time) / 3600
    let rate : Rat := 10
    let total : Rat := (hours : Rat) * rate
    let floors' := vacateFirst lot.floors ticket.spot_id
    let ticket' : ParkingTicket :=
      { ticket with exit_time := some now, payment_status := .Succeeded }
    let tickets' := alInsert tickets₁ ticket_id ticket'
    (.ok { total := total, chargeback := 0 },
     { lot with floors := floors', active_tickets := tickets' })

/-- `ParkingLot::display_info`: floor count, total spot count (the field the
source calls `num_empty_spots`), and occupied-spot count. -/
def display_info (lot : ParkingLot) : ParkingLotDisplayBoard :=
  { uid := lot.uid
  , num_floors := lot.floors.length
  , num_empty_spots := (lot.floors.map (fun p => p.2.spots.length)).sum
  , num_parked_vehicles :=
      (lot.floors.map
        (fun p => (p.2.spots.filter (fun q => !q.2.is_free)).length)).sum }

end ParkingLot

/-! ### Sequences of park calls and concrete scenarios -/

namespace ParkingLot

/-- Run a sequence of `park_vehicle` calls (each with its own current time),
collecting the tickets of the successful calls in order. -/
def parkSeq (lot : ParkingLot) : List (Vehicle × Nat) → ParkingLot × List ParkingTicket
  | [] => (lot, [])
  | (v, now) :: rest =>
    match lot.park_vehicle v now with
    | (.ok t, lot') =>
      let (lotF, ts) := parkSeq lot' rest
      (lotF, t :: ts)
    | (.error _, lot') => parkSeq lot' rest

end ParkingLot

/-- A motor vehicle, as built in `main.rs`. -/
def motorVehicle : Vehicle :=
  { vehicle_type := .Motor, model := "Toyota", license_plate := "ABC123" }

/-- A bike, as built in `main.rs`. -/
def bikeVehicle : Vehicle :=
  { vehicle_type := .Bike, model := "Suzuki", license_plate := "DEF456" }

/-- A lot built through the public constructors: `ParkingLot::new` plus two
`ParkingFloor::new` floors (ids 1 and 2), each of which initializes its ten
default `Regular` spots under the keys `spot_0` … `spot_9`. -/
def lotTwoFloors : ParkingLot :=
  let (f1, c1) := ParkingFloor.new 1 0
  let (f2, _) := ParkingFloor.new 2 c1
  ((ParkingLot.new "Park-Wella Parking Hub" "Lagos, Nigeria" "1234" 0).add_floor
      f1).add_floor f2

/-- Eleven consecutive `park_vehicle` requests for motor vehicles, all at
time 0 — one more than one floor holds. -/
def elevenMotors : List (Vehicle × Nat) :=
  List.replicate 11 (motorVehicle, 0)

/-- The lot and issued tickets after the eleven park calls on
`lotTwoFloors`. -/
def elevenParked : ParkingLot × List ParkingTicket :=
  lotTwoFloors.parkSeq elevenMotors

/-- The free `Handicapped` spot of the C2 scenario. -/
def handicappedFreeSpot : ParkingSpot :=
  { id := "spot_0", is_free := true, spot_type := .Handicapped, vehicle := none }

/-- The C2 scenario lot: one floor whose only spot is a free `Handicapped`
spot. -/
def lotOneHandicapped : ParkingLot :=
  { name := "Park-Wella Parking Hub"
  , address := "Lagos, Nigeria"
  , uid := "1234"
  , floors := [(1, { id := 1, spots := [("spot_0", handicappedFreeSpot)] })]
  , active_tickets := []
  , ticket_counter := 0 }

/-- A `Regular` spot occupied by `motorVehicle`. -/
def occupiedSpot : ParkingSpot :=
  { id := "spot_0", is_free := false, spot_type := .Regular
  , vehicle := some motorVehicle }

/-- A free `Regular` spot. -/
def regularFreeSpot : ParkingSpot :=
  { id := "spot_0", is_free := true, spot_type := .Regular, vehicle := none }

/-- A ticket for `motorVehicle` on `spot_0`, entered at time 0. -/
def baseTicket : ParkingTicket :=
  { ticket_id := "TKT_0"
  , vehicle := motorVehicle
  , spot_id := "spot_0"
  , entry_time := 0
  , exit_time := none
  , payment_status := .Pending }

/-- A lot holding one occupied spot and the matching active ticket
`TKT_0` — the state right after a successful park. -/
def ticketedLot : ParkingLot :=
  { name := "Park-Wella Parking Hub"
  , address := "Lagos, Nigeria"
  , uid := "1234"
  , floors := [(1, { id := 1, spots := [("spot_0", occupiedSpot)] })]
  , active_tickets := [("TKT_0", baseTicket)]
  , ticket_counter := 1 }

/-! ### Association-list lemmas -/

theorem alLookup_alInsert_self {α β : Type} [DecidableEq α]
    (m : List (α × β)) (k : α) (v : β) :
    alLookup (alInsert m k v) k = some v := by
  induction m with
  | nil => simp [alInsert, alLookup]
  | cons hd tl ih =>
    obtain ⟨k', v'⟩ := hd
    by_cases h : k' = k
    · subst h
      simp [alInsert, alLookup]
    · simp [alInsert, alLookup, h, ih]

theorem alRemove_eq_of_lookup_none {α β : Type} [DecidableEq α]
    (m : List (α × β)) (k : α) (h : alLookup m k = none) :
    alRemove m k = m := by
  induction m with
  | nil => rfl
  | cons hd tl ih =>
    obtain ⟨k', v'⟩ := hd
    by_cases hk : k' = k
    · simp [alLookup, hk] at h
    · simp [alLookup, hk] at h
      simp [alRemove, hk, ih h]

/-! ### Behaviour of `unpark_vehicle` when the ticket is found -/

theorem unpark_found (lot : ParkingLot) (tid : String) (now : Nat)
    (t : ParkingTicket) (hfind : alLookup lot.active_tickets tid = some t) :
    lot.unpark_vehicle tid now =
      (.ok { total := (((now - t.entry_time) / 3600 : Nat) : Rat) * 10
           , chargeback := 0 },
       { lot with
           floors := ParkingLot.vacateFirst lot.floors t.spot_id
         , active_tickets :=
             alInsert (alRemove lot.active_tickets tid) tid
               { t with exit_time := some now, payment_status := .Succeeded } }) := by
  simp [ParkingLot.unpark_vehicle, hfind]

/-! ### Claim C4 -/

/-- Claim C4: for every lot state, `unpark_vehicle` with a ticket id absent
from the ticket table fails with `InvalidTicket` ("Invalid ticket ID") and
mutates nothing — the result state is exactly the input lot, so the ticket
table, every floor, and every spot's occupancy flag and occupant are
unchanged. -/
theorem c4_invalid_ticket_no_mutation (lot : ParkingLot) (tid : String)
    (now : Nat) (h : alLookup lot.active_tickets tid = none) :
    lot.unpark_vehicle tid now = (.error "Invalid ticket ID", lot) := by
  simp [ParkingLot.unpark_vehicle, h, alRemove_eq_of_lookup_none _ _ h]

/-- Witness for C4: a fresh lot with an empty ticket table rejects the id
"nonexistent" and comes back unchanged. -/
theorem c4_invalid_ticket_no_mutation_witness :
    (ParkingLot.new "n" "a" "u" 0).unpark_vehicle "nonexistent" 0 =
      (.error "Invalid ticket ID", ParkingLot.new "n" "a" "u" 0) :=
  c4_invalid_ticket_no_mutation (ParkingLot.new "n" "a" "u" 0) "nonexistent" 0 rfl

/-! ### Claim C5 -/

/-- Claim C5: every successful `unpark_vehicle` returns the charge
`wholeHours * 10` with zero chargeback, where `wholeHours` is the stay
`now - entry_time` truncated to whole hours.  In particular a 59-minute
stay (3540 s) bills 0, a 60-minute stay (3600 s) bills 10, and a 119-minute
stay (7140 s) bills 10 — see the witness. -/
theorem c5_charge_formula (lot : ParkingLot) (tid : String) (now : Nat)
    (t : ParkingTicket) (hfind : alLookup lot.active_tickets tid = some t)
    (hle : t.entry_time ≤ now) :
    (lot.unpark_vehicle tid now).1 =
      .ok { total := (((now - t.entry_time) / 3600 : Nat) : Rat) * 10
          , chargeback := 0 } := by
  rw [unpark_found lot tid now t hfind]

/-- Witness for C5: the billing boundaries at 59, 60 and 119 minutes. -/
theorem c5_charge_formula_witness :
    (ticketedLot.unpark_vehicle "TKT_0" 3540).1 =
        .ok { total := 0, chargeback := 0 } ∧
      (ticketedLot.unpark_vehicle "TKT_0" 3600).1 =
        .ok { total := 10, chargeback := 0 } ∧
      (ticketedLot.unpark_vehicle "TKT_0" 7140).1 =
        .ok { total := 10, chargeback := 0 } :=
  ⟨(c5_charge_formula ticketedLot "TKT_0" 3540 baseTicket rfl (by decide)).trans
      (by norm_num [baseTicket]),
   (c5_charge_formula ticketedLot "TKT_0" 3600 baseTicket rfl (by decide)).trans
      (by norm_num [baseTicket]),
   (c5_charge_formula ticketedLot "TKT_0" 7140 baseTicket rfl (by decide)).trans
      (by norm_num [baseTicket])⟩

/-! ### Claim C6 -/

/-- Claim C6: `assign_vehicle` fails with `AlreadyOccupied` ("Spot is
already occupied") whenever the spot is occupied; on a free spot with an
incompatible (vehicle class, spot class) pair it fails with
`IncompatibleClass` ("Vehicle type not compatible with spot type") and
returns the spot unchanged — the flag stays free and no occupant is set;
on a free spot with a compatible pair it succeeds, setting the occupant and
clearing the free flag. -/
theorem c6_assign_vehicle_cases (s : ParkingSpot) (v : Vehicle) :
    (s.is_free = false →
      s.assign_vehicle v = (.error "Spot is already occupied", s)) ∧
    (s.is_free = true → s.is_compatible v.vehicle_type = false →
      s.assign_vehicle v =
        (.error "Vehicle type not compatible with spot type", s)) ∧
    (s.is_free = true → s.is_compatible v.vehicle_type = true →
      s.assign_vehicle v = (.ok (), { s with vehicle := some v, is_free := false })) := by
  refine ⟨fun h => ?_, fun h hc => ?_, fun h hc => ?_⟩
  · simp [ParkingSpot.assign_vehicle, h]
  · simp [ParkingSpot.assign_vehicle, h, hc]
  · simp [ParkingSpot.assign_vehicle, h, hc]

/-- Witness for C6: the three cases at concrete spots — an occupied spot, a
free Handicapped spot offered a bike, and a free Regular spot offered a
motor vehicle. -/
theorem c6_assign_vehicle_cases_witness :
    occupiedSpot.assign_vehicle motorVehicle =
        (.error "Spot is already occupied", occupiedSpot) ∧
      handicappedFreeSpot.assign_vehicle bikeVehicle =
        (.error "Vehicle type not compatible with spot type", handicappedFreeSpot) ∧
      regularFreeSpot.assign_vehicle motorVehicle =
        (.ok (), { regularFreeSpot with vehicle := some motorVehicle, is_free := false }) :=
  ⟨(c6_assign_vehicle_cases occupiedSpot motorVehicle).1 rfl,
   (c6_assign_vehicle_cases handicappedFreeSpot bikeVehicle).2.1 rfl rfl,
   (c6_assign_vehicle_cases regularFreeSpot motorVehicle).2.2 rfl rfl⟩

/-! ### Claim C2 -/

/-- Counterexample to claim C2 as stated: on the one-floor,
one-free-Handicapped-spot lot, parking a bike fails with
"No available spots" (`NoAvailableSpot`), which is not the
`IncompatibleClass` error — the compatibility filter already runs inside
the scan, so no spot is ever found and `assign_vehicle` is never reached. -/
theorem c2_park_bike_counterexample :
    (lotOneHandicapped.park_vehicle bikeVehicle 0).1 =
        .error "No available spots" ∧
      (Except.error "No available spots" : Except String ParkingTicket) ≠
        .error "Vehicle type not compatible with spot type" := by
  constructor
  · rfl
  · decide

/-- Claim C2 as amended: on a lot with one floor whose only spot is a free
`Handicapped` spot, parking any bike fails with the `NoAvailableSpot` error
("No available spots"), not `IncompatibleClass`: `find_available_spot`
filters incompatible spots during the scan, so the scan comes back empty
and the lot is left unchanged. -/
theorem c2_park_bike_no_available_spot (model plate : String) (now : Nat) :
    lotOneHandicapped.park_vehicle
        { vehicle_type := .Bike, model := model, license_plate := plate } now =
      (.error "No available spots", lotOneHandicapped) :=
  rfl

/-! ### Claim C8 -/

/-- All spots of the lot, floor by floor in iteration order — the spec-side
phrasing "all Spots across all Floors". -/
def allSpots (lot : ParkingLot) : List ParkingSpot :=
  lot.floors.flatMap (fun p => p.2.spots.map Prod.snd)

theorem filter_map_snd_length (l : List (String × ParkingSpot))
    (p : ParkingSpot → Bool) :
    ((l.map Prod.snd).filter p).length = (l.filter (fun q => p q.2)).length := by
  induction l with
  | nil => rfl
  | cons hd tl ih =>
    by_cases h : p hd.2 <;> simp [List.filter_cons, h, ih]

theorem allSpots_length (lot : ParkingLot) :
    (allSpots lot).length = (lot.floors.map (fun p => p.2.spots.length)).sum := by
  unfold allSpots
  induction lot.floors with
  | nil => rfl
  | cons hd tl ih => simp [List.flatMap_cons, ih]

theorem allSpots_filter_length (lot : ParkingLot) :
    ((allSpots lot).filter (fun s => !s.is_free)).length =
      (lot.floors.map
        (fun p => (p.2.spots.filter (fun q => !q.2.is_free)).length)).sum := by
  unfold allSpots
  induction lot.floors with
  | nil => rfl
  | cons hd tl ih =>
    simp [List.flatMap_cons, List.filter_append, ih,
      filter_map_snd_length hd.2.spots (fun s => !s.is_free)]

/-- Claim C8: for every lot, `display_info` reports `num_floors` equal to
the number of floors, `num_empty_spots` equal to the total number of spots
across all floors (all spots, not just free ones), and
`num_parked_vehicles` equal to the number of spots whose occupancy flag is
set.  The embedding of `display_info` is a pure function of the lot — the
source only reads under its locks — so no state is mutated. -/
theorem c8_display_info_counts (lot : ParkingLot) :
    lot.display_info.num_floors = lot.floors.length ∧
      lot.display_info.num_empty_spots = (allSpots lot).length ∧
      lot.display_info.num_parked_vehicles =
        ((allSpots lot).filter (fun s => !s.is_free)).length :=
  ⟨rfl, (allSpots_length lot).symm, (allSpots_filter_length lot).symm⟩

/-! ### Claim C9 -/

/-- An operation on a single spot through its public interface. -/
inductive SpotOp where
  | occupy (v : Vehicle)
  | vacate
deriving DecidableEq, Repr

/-- Run a sequence of occupy/vacate operations on a spot (a failed occupy
leaves the spot as it was). -/
def applySpotOps (s : ParkingSpot) : List SpotOp → ParkingSpot
  | [] => s
  | SpotOp.occupy v :: rest => applySpotOps (s.assign_vehicle v).2 rest
  | SpotOp.vacate :: rest => applySpotOps s.remove_vehicle rest

/-- The C9 invariant: the occupant is present iff the spot is occupied. -/
def occupantMatchesFlag (s : ParkingSpot) : Prop :=
  s.vehicle ≠ none ↔ s.is_free = false

theorem occupantMatchesFlag_assign (s : ParkingSpot) (v : Vehicle)
    (h : occupantMatchesFlag s) :
    occupantMatchesFlag (s.assign_vehicle v).2 := by
  unfold occupantMatchesFlag at *
  by_cases hf : s.is_free
  · by_cases hc : s.is_compatible v.vehicle_type
    · simp [ParkingSpot.assign_vehicle, hf, hc]
    · simpa [ParkingSpot.assign_vehicle, hf, hc] using h
  · simpa [ParkingSpot.assign_vehicle, hf] using h

theorem occupantMatchesFlag_applySpotOps (s : ParkingSpot)
    (ops : List SpotOp) (h : occupantMatchesFlag s) :
    occupantMatchesFlag (applySpotOps s ops) := by
  induction ops generalizing s with
  | nil => exact h
  | cons op rest ih =>
    cases op with
    | occupy v => exact ih _ (occupantMatchesFlag_assign s v h)
    | vacate =>
      refine ih _ ?_
      unfold occupantMatchesFlag ParkingSpot.remove_vehicle
      simp

/-- Counterexample to claim C9 as stated: `ParkingSpot::new(false, class)`
builds a spot whose occupancy flag is set but whose occupant is absent, so
the claimed iff already fails on the freshly built spot (empty operation
sequence). -/
theorem c9_new_occupied_without_occupant :
    ¬ (((ParkingSpot.new 0 false SpotType.Regular).1.vehicle ≠ none) ↔
        ((ParkingSpot.new 0 false SpotType.Regular).1.is_free = false)) := by
  decide

/-- Claim C9 as amended: for every spot built by `ParkingSpot::new` with
`is_free = true` (as every spot the floors create is) and after every
sequence of occupy and vacate operations, the occupant is present iff the
spot is occupied.  (Built with `is_free = false` the spot starts occupied
with no occupant, violating the iff — see the counterexample.) -/
theorem c9_occupant_iff_occupied (c : Nat) (st : SpotType) (ops : List SpotOp) :
    (applySpotOps (ParkingSpot.new c true st).1 ops).vehicle ≠ none ↔
      (applySpotOps (ParkingSpot.new c true st).1 ops).is_free = false := by
  have h0 : occupantMatchesFlag (ParkingSpot.new c true st).1 := by
    unfold occupantMatchesFlag ParkingSpot.new
    simp
  exact occupantMatchesFlag_applySpotOps _ ops h0

/-! ### Claim C10 -/

/-- The key of the first floor (in iteration order) whose spot table holds
`sid` — the floor `unpark_vehicle`'s freeing loop will touch. -/
def firstFloorWith : List (Nat × ParkingFloor) → String → Option Nat
  | [], _ => none
  | (k, f) :: rest, sid =>
    if (alLookup f.spots sid).isSome then some k else firstFloorWith rest sid

theorem firstFloorWith_mem (fs : List (Nat × ParkingFloor)) (sid : String)
    (fid : Nat) (h : firstFloorWith fs sid = some fid) :
    fid ∈ fs.map Prod.fst := by
  induction fs with
  | nil => simp [firstFloorWith] at h
  | cons hd tl ih =>
    obtain ⟨k, g⟩ := hd
    by_cases hh : (alLookup g.spots sid).isSome
    · simp [firstFloorWith, hh] at h
      simp [h]
    · simp [firstFloorWith, hh] at h
      simp [ih h]

theorem vacateFirst_keys (fs : List (Nat × ParkingFloor)) (sid : String) :
    (ParkingLot.vacateFirst fs sid).map Prod.fst = fs.map Prod.fst := by
  induction fs with
  | nil => rfl
  | cons hd tl ih =>
    obtain ⟨k, g⟩ := hd
    cases hlk : alLookup g.spots sid <;>
      simp [ParkingLot.vacateFirst, hlk, ih]

theorem vacateFirst_frees (fs : List (Nat × ParkingFloor)) (sid : String)
    (fid : Nat) (hnd : (fs.map Prod.fst).Nodup)
    (h : firstFloorWith fs sid = some fid) :
    ∃ f, alLookup (ParkingLot.vacateFirst fs sid) fid = some f ∧
      ∃ s, alLookup f.spots sid = some s ∧
        s.is_free = true ∧ s.vehicle = none := by
  induction fs with
  | nil => simp [firstFloorWith] at h
  | cons hd tl ih =>
    obtain ⟨k, g⟩ := hd
    cases hlk : alLookup g.spots sid with
    | some spot =>
      have hk : k = fid := by simpa [firstFloorWith, hlk] using h
      subst hk
      refine ⟨{ g with spots := alInsert g.spots sid spot.remove_vehicle },
        ?_, spot.remove_vehicle, alLookup_alInsert_self _ _ _, rfl, rfl⟩
      simp [ParkingLot.vacateFirst, hlk, alLookup]
    | none =>
      have h' : firstFloorWith tl sid = some fid := by
        simpa [firstFloorWith, hlk] using h
      rw [List.map_cons, List.nodup_cons] at hnd
      have hkmem : k ∉ tl.map Prod.fst := hnd.1
      have hne : k ≠ fid := by
        intro he
        exact hkmem (he ▸ firstFloorWith_mem tl sid fid h')
      obtain ⟨f, hf, hs⟩ := ih hnd.2 h'
      exact ⟨f, by simp [ParkingLot.vacateFirst, hlk, alLookup, hne, hf], hs⟩

theorem alLookup_alInsert_ne {α β : Type} [DecidableEq α]
    (m : List (α × β)) (k k' : α) (v : β) (hne : k ≠ k') :
    alLookup (alInsert m k v) k' = alLookup m k' := by
  induction m with
  | nil => simp [alInsert, alLookup, hne]
  | cons hd tl ih =>
    obtain ⟨k₀, v₀⟩ := hd
    by_cases h0 : k₀ = k
    · subst h0
      simp [alInsert, alLookup, hne]
    · by_cases h1 : k₀ = k' <;>
        simp [alInsert, alLookup, h0, h1, ih, hne.symm]

/-- A `park_vehicle` call never touches ticket-table entries other than the
one it mints (`TKT_<counter>`): every other id still maps to the same
ticket afterwards. -/
theorem park_vehicle_preserves_other_tickets (lot : ParkingLot) (v : Vehicle)
    (now : Nat) (tid : String)
    (hne : "TKT_" ++ toString lot.ticket_counter ≠ tid) :
    alLookup (lot.park_vehicle v now).2.active_tickets tid =
      alLookup lot.active_tickets tid := by
  cases hfs : ParkingLot.findFloorsSpot lot.floors v.vehicle_type with
  | none => simp [ParkingLot.park_vehicle, hfs]
  | some r =>
    obtain ⟨fn, sid⟩ := r
    cases hfl : alLookup lot.floors fn with
    | none => simp [ParkingLot.park_vehicle, hfs, hfl]
    | some floor =>
      cases hsp : alLookup floor.spots sid with
      | none => simp [ParkingLot.park_vehicle, hfs, hfl, hsp]
      | some spot =>
        cases has : spot.assign_vehicle v with
        | mk res spot' =>
          cases res with
          | error e => simp [ParkingLot.park_vehicle, hfs, hfl, hsp, has]
          | ok u =>
            simp [ParkingLot.park_vehicle, hfs, hfl, hsp, has,
              alLookup_alInsert_ne _ _ _ _ hne]

/-- Claim C10: a successful `unpark_vehicle` re-inserts the released ticket
under the same id, with exit time and `Succeeded` status (first conjunct);
intervening `park_vehicle` calls leave that table entry in place, since
they only insert under their own freshly minted id (second conjunct); and
from **any** later lot state still holding the re-inserted ticket — in
particular one where the spot named by the ticket has meanwhile been
occupied by a different vehicle — a second `unpark_vehicle` with the same
id succeeds, returning a charge rather than `InvalidTicket`, and again runs
`remove_vehicle` on the first floor holding the ticket's spot id, leaving
that spot free and empty whatever vehicle was in it (third conjunct; no
hypothesis constrains the spot's occupancy there). -/
theorem c10_double_unpark (lot : ParkingLot) (tid : String) (now : Nat)
    (t : ParkingTicket)
    (hfind : alLookup lot.active_tickets tid = some t) :
    (∃ c lot₁, lot.unpark_vehicle tid now = (.ok c, lot₁) ∧
        alLookup lot₁.active_tickets tid =
          some { t with exit_time := some now, payment_status := .Succeeded }) ∧
      (∀ (v : Vehicle) (now' : Nat) (lotA : ParkingLot),
        alLookup lotA.active_tickets tid =
            some { t with exit_time := some now, payment_status := .Succeeded } →
        "TKT_" ++ toString lotA.ticket_counter ≠ tid →
        alLookup (lotA.park_vehicle v now').2.active_tickets tid =
          some { t with exit_time := some now, payment_status := .Succeeded }) ∧
      (∀ (lot₂ : ParkingLot) (now₂ : Nat),
        alLookup lot₂.active_tickets tid =
            some { t with exit_time := some now, payment_status := .Succeeded } →
        (lot₂.floors.map Prod.fst).Nodup →
        ∃ c₂ lot₃, lot₂.unpark_vehicle tid now₂ = (.ok c₂, lot₃) ∧
          ∀ fid, firstFloorWith lot₂.floors t.spot_id = some fid →
            ∃ f, alLookup lot₃.floors fid = some f ∧
              ∃ s, alLookup f.spots t.spot_id = some s ∧
                s.is_free = true ∧ s.vehicle = none) := by
  refine ⟨⟨_, _, unpark_found lot tid now t hfind, alLookup_alInsert_self _ _ _⟩,
    ?_, ?_⟩
  · intro v now' lotA hA hne
    rw [park_vehicle_preserves_other_tickets lotA v now' tid hne]
    exact hA
  · intro lot₂ now₂ hfind₂ hnd₂
    refine ⟨_, _, unpark_found lot₂ tid now₂ _ hfind₂, ?_⟩
    intro fid hf
    exact vacateFirst_frees _ _ _ hnd₂ hf

/-- The lot after releasing `TKT_0` from `ticketedLot`: the completed
ticket is kept under the same id and the spot is free again. -/
def lotAfterFirstUnpark : ParkingLot := (ticketedLot.unpark_vehicle "TKT_0" 0).2

/-- `lotAfterFirstUnpark` after parking `bikeVehicle`: the spot named by
`TKT_0` is now occupied by a different vehicle, and the historical ticket
`TKT_0` is still in the table (the park minted `TKT_1`). -/
def lotReoccupied : ParkingLot := (lotAfterFirstUnpark.park_vehicle bikeVehicle 0).2

/-- Witness for C10, exercising all three parts on a concrete run: release
`TKT_0`, let a park meanwhile occupy the spot with `bikeVehicle` — a
vehicle different from the ticket's — then unpark `TKT_0` a second time:
it succeeds and evicts the bike, leaving the spot free and empty.  The
table entry for `TKT_0` at the re-occupied state is obtained through the
theorem's preservation part. -/
theorem c10_double_unpark_witness :
    ((alLookup lotReoccupied.floors 1).bind
        (fun f => alLookup f.spots "spot_0")).map
          (fun s => (s.is_free, s.vehicle)) = some (false, some bikeVehicle) ∧
      bikeVehicle ≠ motorVehicle ∧
      ∃ c₂ lot₃, lotReoccupied.unpark_vehicle "TKT_0" 7200 = (.ok c₂, lot₃) ∧
        ∀ fid, firstFloorWith lotReoccupied.floors baseTicket.spot_id = some fid →
          ∃ f, alLookup lot₃.floors fid = some f ∧
            ∃ s, alLookup f.spots baseTicket.spot_id = some s ∧
              s.is_free = true ∧ s.vehicle = none :=
  ⟨by decide, by decide,
   (c10_double_unpark ticketedLot "TKT_0" 0 baseTicket rfl).2.2
     lotReoccupied 7200
     ((c10_double_unpark ticketedLot "TKT_0" 0 baseTicket rfl).2.1
       bikeVehicle 0 lotAfterFirstUnpark (by decide) (by decide))
     (by decide)⟩

/-! ### Claims C1, C3, C7: the spot-identifier collision bug -/

/-- The first floor built by `ParkingFloor::new(1)` on a fresh process
(spot-id counter 0). -/
def floorOne : ParkingFloor := (ParkingFloor.new 1 0).1

/-- The second floor built by `ParkingFloor::new(2)` right after
`floorOne`. -/
def floorTwo : ParkingFloor := (ParkingFloor.new 2 (ParkingFloor.new 1 0).2).1

/-- The lot and issued tickets after only ten park calls on
`lotTwoFloors` — floor 1 full, floor 2 untouched. -/
def tenParked : ParkingLot × List ParkingTicket :=
  lotTwoFloors.parkSeq (List.replicate 10 (motorVehicle, 0))

/-- Claim C3 refuted on the code: two floors freshly built by
`ParkingFloor::new` both store a spot under the key "spot_0" (and under
every key "spot_0" … "spot_9"), so the identifier that
`find_available_spot` returns and tickets record is not unique across the
lot.  Moreover the key `floorTwo` stores its first spot under ("spot_0")
differs from that spot's own `id` field ("spot_10" from the process-wide
counter), contradicting `add_spot`'s key-is-id convention. -/
theorem c3_duplicate_spot_keys_across_floors :
    (alLookup floorOne.spots "spot_0").isSome = true ∧
      (alLookup floorTwo.spots "spot_0").isSome = true ∧
      (alLookup floorOne.spots "spot_0").map (fun s => s.id) = some "spot_0" ∧
      (alLookup floorTwo.spots "spot_0").map (fun s => s.id) = some "spot_10" := by
  decide

/-- Claim C1 refuted on the code: on the two-floor lot built through the
public constructors, eleven consecutive `park_vehicle` calls all succeed,
none is ever unparked (the sequence holds park calls only, so every ticket
stays active), yet the issued spot identifiers are not pairwise distinct:
the first ticket (`TKT_0`, floor 1) and the eleventh (`TKT_10`, floor 2)
both reference the spot identifier "spot_0". -/
theorem c1_two_active_tickets_same_spot_id :
    elevenParked.2.length = 11 ∧
      ¬ (elevenParked.2.map (fun t => t.spot_id)).Nodup ∧
      (alLookup elevenParked.1.active_tickets "TKT_0").map
          (fun t => (t.spot_id, t.payment_status)) = some ("spot_0", .Pending) ∧
      (alLookup elevenParked.1.active_tickets "TKT_10").map
          (fun t => (t.spot_id, t.payment_status)) = some ("spot_0", .Pending) := by
  decide

/-- Claim C7 refuted on the code: after ten parks fill floor 1, the
eleventh park succeeds and occupies floor 2's "spot_0" (free after ten
parks, occupied after eleven); unparking its ticket `TKT_10` succeeds, but
the freeing loop stops at the first floor holding the key "spot_0" —
floor 1 — so floor 1's "spot_0" (still covered by the active ticket
`TKT_0`) is wrongly freed while floor 2's "spot_0", the spot this park
occupied, stays occupied. -/
theorem c7_unpark_frees_wrong_floor :
    (elevenParked.2.get? 10).map (fun t => (t.ticket_id, t.spot_id)) =
        some ("TKT_10", "spot_0") ∧
      ((alLookup tenParked.1.floors 2).bind
          (fun f => alLookup f.spots "spot_0")).map (fun s => s.is_free) =
        some true ∧
      ((alLookup elevenParked.1.floors 2).bind
          (fun f => alLookup f.spots "spot_0")).map (fun s => s.is_free) =
        some false ∧
      ((alLookup elevenParked.1.floors 1).bind
          (fun f => alLookup f.spots "spot_0")).map (fun s => s.is_free) =
        some false ∧
      ((elevenParked.1.unpark_vehicle "TKT_10" 0).1.toOption).isSome = true ∧
      ((alLookup (elevenParked.1.unpark_vehicle "TKT_10" 0).2.floors 2).bind
          (fun f => alLookup f.spots "spot_0")).map (fun s => s.is_free) =
        some false ∧
      ((alLookup (elevenParked.1.unpark_vehicle "TKT_10" 0).2.floors 1).bind
          (fun f => alLookup f.spots "spot_0")).map (fun s => s.is_free) =
        some true := by
  decide
